import Mathlib

/-!
Verification of the marketing trend-analysis pipeline.

The development shallowly embeds the pipeline's pure core: the record
model (`src/types.ts`), the date utilities (`src/utils/date-utils.ts`),
the metric calculators and the data-quality validator
(`src/services/data-analysis.ts`), the trend composers
(`src/utils/trend-analysis.ts`), the pure data-flow of the analysis
nodes (`src/agents/nodes.ts`) and the orchestration state graph
(`src/agents/agent.ts`).  JavaScript numbers are modelled as rationals
(`ℚ`), JavaScript `Date` arithmetic is modelled in UTC, strings are
Lean strings (date strings are ASCII, so JS code-unit comparison and
Lean's lexicographic order agree).
-/

namespace Marketing

/-- `Session` record (src/types.ts).  `mcid` is the optional client id;
the empty string models an absent/falsy value, `userPseudoId` is the
always-present fallback identity. -/
structure Session where
  id : String
  mcid : String
  userPseudoId : String
  gaSessionId : String
  datetimeShifted : String
  deviceCategory : String
  deriving DecidableEq, Repr

/-- `Lead` record (src/types.ts). -/
structure Lead where
  id : String
  atomid : String
  mcId : String
  datetimeCreatedShifted : String
  googleClientId : String
  ch_isFirst4ContactAttribution : Bool
  deriving DecidableEq, Repr

/-- `Contact` record (src/types.ts). -/
structure Contact where
  id : String
  atomid : String
  mcId : String
  datetimeCreatedShifted : String
  googleClientId : String
  entityCreatedWith : String
  ch_isFirst : Bool
  deriving DecidableEq, Repr

/-- `Transaction` record (src/types.ts). -/
structure Transaction where
  id : String
  atomid : String
  mcId : String
  paymentDatetimeShifted : String
  paidSumOriginalCurrency : ℚ
  ch_isFirstClientPaid : Bool
  deriving DecidableEq, Repr

/-- `SourceData` record (src/types.ts): a daily ad-spend row. -/
structure SourceData where
  date : String
  atomId : String
  shows : ℚ
  budgetSpent : ℚ
  clicks : ℚ
  deriving DecidableEq, Repr

/-- `Atom` record (src/types.ts): channel-directory entry. -/
structure Atom where
  atomId : String
  name : String
  sourceName : String
  sourceGroupName : String
  isPaidName : String
  deriving DecidableEq, Repr

/-! ## String order (JS code-unit lexicographic comparison)

JS compares strings code-unit-wise; for ASCII date strings this is
plain lexicographic comparison on characters, which we define
executably on the character list. -/

/-- Lexicographic strict comparison of character lists. -/
def charListLtb : List Char → List Char → Bool
  | _, [] => false
  | [], _ :: _ => true
  | a :: as, b :: bs =>
    if a < b then true
    else if a = b then charListLtb as bs
    else false

/-- JS `s < t` on strings. -/
def strLtb (s t : String) : Bool := charListLtb s.data t.data

/-- JS `s <= t` on strings (equivalently `!(t < s)`). -/
def strLeb (s t : String) : Bool := !(strLtb t s)

/-! ## Metric calculators (src/services/data-analysis.ts) -/

/-- `calculateROAS` (src/services/data-analysis.ts): total revenue over
total ad spend, `0` when total spend is `0`. -/
def calculateROAS (transactions : List Transaction) (sourceData : List SourceData) : ℚ :=
  let totalRevenue := transactions.foldl (fun sum tx => sum + tx.paidSumOriginalCurrency) 0
  let totalAdSpend := sourceData.foldl (fun sum src => sum + src.budgetSpent) 0
  if totalAdSpend = 0 then 0
  else totalRevenue / totalAdSpend

/-- `calculateCAC` (src/services/data-analysis.ts): total ad spend over
the number of distinct `mcId`s among first-payment transactions, `0`
when that count is `0`. -/
def calculateCAC (transactions : List Transaction) (sourceData : List SourceData) : ℚ :=
  let uniqueCustomers :=
    ((transactions.filter (fun tx => tx.ch_isFirstClientPaid)).map (fun tx => tx.mcId)).dedup.length
  let totalAdSpend := sourceData.foldl (fun sum src => sum + src.budgetSpent) 0
  if uniqueCustomers = 0 then 0
  else totalAdSpend / uniqueCustomers

/-- `isChangeSigificant` (src/services/data-analysis.ts), default
threshold `10`: at zero baseline any positive current value is
significant, otherwise the absolute percentage change must meet the
threshold (inclusive). -/
def isChangeSigificant (current previous : ℚ) (threshold : ℚ := 10) : Bool :=
  if previous = 0 then decide (current > 0)
  else decide (|((current - previous) / previous) * 100| ≥ threshold)

/-- Spec-side helper: total revenue of a transaction list. -/
def totalRevenue (transactions : List Transaction) : ℚ :=
  transactions.foldl (fun sum tx => sum + tx.paidSumOriginalCurrency) 0

/-- Spec-side helper: total ad spend of a source-data list. -/
def totalAdSpend (sourceData : List SourceData) : ℚ :=
  sourceData.foldl (fun sum src => sum + src.budgetSpent) 0

/-- Spec-side helper: number of distinct client ids among first-payment
transactions. -/
def distinctFirstPayers (transactions : List Transaction) : ℕ :=
  ((transactions.filter (fun tx => tx.ch_isFirstClientPaid)).map (fun tx => tx.mcId)).dedup.length

/-- C6: each metric calculator equals its defining quotient with a
zero-denominator guard; in the rational model neither ever divides by
zero or produces an undefined value. -/
theorem roas_cac_quotients :
    (∀ tx sd, totalAdSpend sd ≠ 0 → calculateROAS tx sd = totalRevenue tx / totalAdSpend sd)
    ∧ (∀ tx sd, totalAdSpend sd = 0 → calculateROAS tx sd = 0)
    ∧ (∀ tx, calculateROAS tx [] = 0)
    ∧ (∀ tx sd, distinctFirstPayers tx ≠ 0 →
        calculateCAC tx sd = totalAdSpend sd / (distinctFirstPayers tx : ℚ))
    ∧ (∀ tx sd, distinctFirstPayers tx = 0 → calculateCAC tx sd = 0) := by
  refine ⟨?_, ?_, ?_, ?_, ?_⟩
  · intro tx sd h
    simp only [calculateROAS, totalRevenue, totalAdSpend] at *
    rw [if_neg h]
  · intro tx sd h
    simp only [calculateROAS, totalRevenue, totalAdSpend] at *
    rw [if_pos h]
  · intro tx
    simp [calculateROAS]
  · intro tx sd h
    simp only [calculateCAC, distinctFirstPayers, totalAdSpend] at *
    rw [if_neg h]
  · intro tx sd h
    simp only [calculateCAC, distinctFirstPayers, totalAdSpend] at *
    rw [if_pos h]

/-- Witness for `roas_cac_quotients` at concrete inputs. -/
theorem roas_cac_quotients_witness :
    calculateROAS [⟨"t1", "a1", "m1", "2024-06-10 08:00:00", 5, true⟩]
        [⟨"2024-06-10", "a1", 0, 2, 0⟩] = 5 / 2
    ∧ calculateROAS [⟨"t1", "a1", "m1", "2024-06-10 08:00:00", 5, true⟩] [] = 0
    ∧ calculateCAC [⟨"t1", "a1", "m1", "2024-06-10 08:00:00", 5, true⟩]
        [⟨"2024-06-10", "a1", 0, 2, 0⟩] = 2 / 1
    ∧ calculateCAC [] [⟨"2024-06-10", "a1", 0, 2, 0⟩] = 0 := by
  refine ⟨?_, ?_, ?_, ?_⟩
  · have h := roas_cac_quotients.1
      [⟨"t1", "a1", "m1", "2024-06-10 08:00:00", 5, true⟩]
      [⟨"2024-06-10", "a1", 0, 2, 0⟩] (by norm_num [totalAdSpend])
    rw [h]; norm_num [totalRevenue, totalAdSpend]
  · exact roas_cac_quotients.2.2.1 [⟨"t1", "a1", "m1", "2024-06-10 08:00:00", 5, true⟩]
  · have hd : distinctFirstPayers
        [⟨"t1", "a1", "m1", "2024-06-10 08:00:00", 5, true⟩] = 1 := by decide
    have h := roas_cac_quotients.2.2.2.1
      [⟨"t1", "a1", "m1", "2024-06-10 08:00:00", 5, true⟩]
      [⟨"2024-06-10", "a1", 0, 2, 0⟩] (by decide)
    rw [h, hd]; norm_num [totalAdSpend]
  · exact roas_cac_quotients.2.2.2.2 [] [⟨"2024-06-10", "a1", 0, 2, 0⟩] (by decide)

/-! ## Date utilities (src/utils/date-utils.ts) -/

/-- Characters before the first space, as used by JS
`dateTimeStr.split(" ")[0]`. -/
def takeUntilSpace : List Char → List Char
  | [] => []
  | c :: cs => if c = ' ' then [] else c :: takeUntilSpace cs

/-- `extractDatePart` (src/utils/date-utils.ts): the date part of a
datetime string, i.e. everything before the first space. -/
def extractDatePart (dateTimeStr : String) : String :=
  String.mk (takeUntilSpace dateTimeStr.data)

/-- `filterSessionsByDateRange` (src/utils/date-utils.ts). -/
def filterSessionsByDateRange (sessions : List Session) (startDate endDate : String) :
    List Session :=
  sessions.filter (fun session =>
    let sessionDate := extractDatePart session.datetimeShifted
    strLeb startDate sessionDate && strLtb sessionDate endDate)

/-- `filterLeadsByDateRange` (src/utils/date-utils.ts). -/
def filterLeadsByDateRange (leads : List Lead) (startDate endDate : String) : List Lead :=
  leads.filter (fun lead =>
    let leadDate := extractDatePart lead.datetimeCreatedShifted
    strLeb startDate leadDate && strLtb leadDate endDate)

/-- `filterContactsByDateRange` (src/utils/date-utils.ts). -/
def filterContactsByDateRange (contacts : List Contact) (startDate endDate : String) :
    List Contact :=
  contacts.filter (fun contact =>
    let contactDate := extractDatePart contact.datetimeCreatedShifted
    strLeb startDate contactDate && strLtb contactDate endDate)

/-- `filterTransactionsByDateRange` (src/utils/date-utils.ts). -/
def filterTransactionsByDateRange (transactions : List Transaction)
    (startDate endDate : String) : List Transaction :=
  transactions.filter (fun tx =>
    let txDate := extractDatePart tx.paymentDatetimeShifted
    strLeb startDate txDate && strLtb txDate endDate)

/-- `filterSourceDataByDateRange` (src/utils/date-utils.ts): source data
carries a plain `date` field, no extraction. -/
def filterSourceDataByDateRange (sourceData : List SourceData)
    (startDate endDate : String) : List SourceData :=
  sourceData.filter (fun sd => strLeb startDate sd.date && strLtb sd.date endDate)

/-! Basic facts about the string order used by the filters. -/

theorem charListLtb_irrefl (l : List Char) : charListLtb l l = false := by
  induction l with
  | nil => rfl
  | cons a as ih => simp [charListLtb, ih]

theorem strLtb_irrefl (s : String) : strLtb s s = false :=
  charListLtb_irrefl s.data

theorem strLeb_refl (s : String) : strLeb s s = true := by
  simp [strLeb, strLtb_irrefl]

/-- C7: each date-range filter keeps exactly the records whose
extracted date `d` satisfies `start <= d < end`: the result is a
subsequence, membership is characterised by the two comparisons, a
record dated exactly `startDate` is kept (when the window is
non-degenerate) and a record dated exactly `endDate` is dropped,
uniformly for sessions, leads, contacts, transactions and source
data. -/
theorem filters_date_range_semantics :
    (∀ (recs : List Session) (s e : String) r,
      r ∈ filterSessionsByDateRange recs s e ↔
        r ∈ recs ∧ strLeb s (extractDatePart r.datetimeShifted) = true
          ∧ strLtb (extractDatePart r.datetimeShifted) e = true)
    ∧ (∀ (recs : List Lead) (s e : String) r,
      r ∈ filterLeadsByDateRange recs s e ↔
        r ∈ recs ∧ strLeb s (extractDatePart r.datetimeCreatedShifted) = true
          ∧ strLtb (extractDatePart r.datetimeCreatedShifted) e = true)
    ∧ (∀ (recs : List Contact) (s e : String) r,
      r ∈ filterContactsByDateRange recs s e ↔
        r ∈ recs ∧ strLeb s (extractDatePart r.datetimeCreatedShifted) = true
          ∧ strLtb (extractDatePart r.datetimeCreatedShifted) e = true)
    ∧ (∀ (recs : List Transaction) (s e : String) r,
      r ∈ filterTransactionsByDateRange recs s e ↔
        r ∈ recs ∧ strLeb s (extractDatePart r.paymentDatetimeShifted) = true
          ∧ strLtb (extractDatePart r.paymentDatetimeShifted) e = true)
    ∧ (∀ (recs : List SourceData) (s e : String) r,
      r ∈ filterSourceDataByDateRange recs s e ↔
        r ∈ recs ∧ strLeb s r.date = true ∧ strLtb r.date e = true)
    ∧ (∀ (recs : List Session) (s e : String),
      (filterSessionsByDateRange recs s e).Sublist recs)
    ∧ (∀ (recs : List Session) (s e : String) r, r ∈ recs →
      extractDatePart r.datetimeShifted = s → strLtb s e = true →
      r ∈ filterSessionsByDateRange recs s e)
    ∧ (∀ (recs : List Session) (s e : String) r,
      extractDatePart r.datetimeShifted = e → r ∉ filterSessionsByDateRange recs s e) := by
  refine ⟨?_, ?_, ?_, ?_, ?_, ?_, ?_, ?_⟩
  · intro recs s e r
    simp [filterSessionsByDateRange, List.mem_filter, and_assoc]
  · intro recs s e r
    simp [filterLeadsByDateRange, List.mem_filter, and_assoc]
  · intro recs s e r
    simp [filterContactsByDateRange, List.mem_filter, and_assoc]
  · intro recs s e r
    simp [filterTransactionsByDateRange, List.mem_filter, and_assoc]
  · intro recs s e r
    simp [filterSourceDataByDateRange, List.mem_filter, and_assoc]
  · intro recs s e
    exact List.filter_sublist recs
  · intro recs s e r hmem hdate hlt
    simp [filterSessionsByDateRange, List.mem_filter, hmem, hdate, strLeb_refl, hlt]
  · intro recs s e r hdate hmem
    rw [filterSessionsByDateRange, List.mem_filter] at hmem
    simp only [hdate] at hmem
    simp [strLtb_irrefl] at hmem

/-- Witness for `filters_date_range_semantics` at a concrete window:
a session dated exactly at the start of the window is kept and a
session dated exactly at the (exclusive) end is dropped. -/
theorem filters_date_range_semantics_witness :
    (⟨"s1", "m1", "u1", "g1", "2024-05-18 00:10:00", "mobile"⟩ : Session) ∈
      filterSessionsByDateRange
        [⟨"s1", "m1", "u1", "g1", "2024-05-18 00:10:00", "mobile"⟩,
         ⟨"s2", "m2", "u2", "g2", "2024-06-17 09:00:00", "desktop"⟩]
        "2024-05-18" "2024-06-17"
    ∧ (⟨"s2", "m2", "u2", "g2", "2024-06-17 09:00:00", "desktop"⟩ : Session) ∉
      filterSessionsByDateRange
        [⟨"s1", "m1", "u1", "g1", "2024-05-18 00:10:00", "mobile"⟩,
         ⟨"s2", "m2", "u2", "g2", "2024-06-17 09:00:00", "desktop"⟩]
        "2024-05-18" "2024-06-17" := by
  constructor
  · exact filters_date_range_semantics.2.2.2.2.2.2.1 _ "2024-05-18" "2024-06-17" _
      (by decide) (by decide) (by decide)
  · exact filters_date_range_semantics.2.2.2.2.2.2.2 _ "2024-05-18" "2024-06-17" _
      (by decide)

/-! ## Trend composers (src/utils/trend-analysis.ts) -/

/-- One metric's period-over-period comparison record. -/
structure TrendEntry where
  current : ℚ
  previous : ℚ
  percentageChange : ℚ
  isSignificant : Bool
  deriving DecidableEq, Repr

/-- Result of `calculateMetricsTrend`. -/
structure MetricsTrend where
  roas : TrendEntry
  cac : TrendEntry
  deriving DecidableEq, Repr

/-- One funnel stage's comparison record
(`ConversionAnalysis["stages"]` element). -/
structure StageTrend where
  name : String
  current : ℚ
  previous : ℚ
  percentageChange : ℚ
  isSignificant : Bool
  deriving DecidableEq, Repr

/-- `calculateMetricsTrend` (src/utils/trend-analysis.ts). -/
def calculateMetricsTrend (currentTransactions : List Transaction)
    (currentSourceData : List SourceData) (previousTransactions : List Transaction)
    (previousSourceData : List SourceData) : MetricsTrend :=
  let currentROAS := calculateROAS currentTransactions currentSourceData
  let currentCAC := calculateCAC currentTransactions currentSourceData
  let previousROAS :=
    if previousTransactions.length > 0 ∧ previousSourceData.length > 0 then
      calculateROAS previousTransactions previousSourceData
    else 0
  let previousCAC :=
    if previousTransactions.length > 0 ∧ previousSourceData.length > 0 then
      calculateCAC previousTransactions previousSourceData
    else 0
  let roasPercentageChange :=
    if previousROAS > 0 then ((currentROAS - previousROAS) / previousROAS) * 100 else 0
  let cacPercentageChange :=
    if previousCAC > 0 then ((currentCAC - previousCAC) / previousCAC) * 100 else 0
  let roasSignificant :=
    if previousROAS > 0 then isChangeSigificant currentROAS previousROAS else false
  let cacSignificant :=
    if previousCAC > 0 then isChangeSigificant currentCAC previousCAC else false
  { roas := ⟨currentROAS, previousROAS, roasPercentageChange, roasSignificant⟩
    cac := ⟨currentCAC, previousCAC, cacPercentageChange, cacSignificant⟩ }

/-- `calculateConversionRates` (src/services/data-analysis.ts): distinct
identity counts of the four funnel stages and the four derived rates;
session identity is `mcid` when truthy else `userPseudoId`. -/
def calculateConversionRates (sessions : List Session) (leads : List Lead)
    (contacts : List Contact) (transactions : List Transaction) : List StageTrend :=
  let uniqueVisitors :=
    ((sessions.map (fun s => if s.mcid = "" then s.userPseudoId else s.mcid)).dedup).length
  let uniqueLeads := ((leads.map (fun l => l.mcId)).dedup).length
  let uniqueContacts := ((contacts.map (fun c => c.mcId)).dedup).length
  let uniqueCustomers :=
    (((transactions.filter (fun tx => tx.ch_isFirstClientPaid)).map
      (fun tx => tx.mcId)).dedup).length
  let visitorToLeadRate :=
    if uniqueVisitors > 0 then ((uniqueLeads : ℚ) / uniqueVisitors) * 100 else 0
  let leadToContactRate :=
    if uniqueLeads > 0 then ((uniqueContacts : ℚ) / uniqueLeads) * 100 else 0
  let contactToCustomerRate :=
    if uniqueContacts > 0 then ((uniqueCustomers : ℚ) / uniqueContacts) * 100 else 0
  let overallConversionRate :=
    if uniqueVisitors > 0 then ((uniqueCustomers : ℚ) / uniqueVisitors) * 100 else 0
  [ ⟨"Visitor to Lead", visitorToLeadRate, 0, 0, false⟩,
    ⟨"Lead to Contact", leadToContactRate, 0, 0, false⟩,
    ⟨"Contact to Customer", contactToCustomerRate, 0, 0, false⟩,
    ⟨"Overall (Visitor to Customer)", overallConversionRate, 0, 0, false⟩ ]

/-- `calculateConversionsTrend` (src/utils/trend-analysis.ts): combines
the current stages with the previous stages index-wise. -/
def calculateConversionsTrend (currentSessions : List Session) (currentLeads : List Lead)
    (currentContacts : List Contact) (currentTransactions : List Transaction)
    (previousSessions : List Session) (previousLeads : List Lead)
    (previousContacts : List Contact) (previousTransactions : List Transaction) :
    List StageTrend :=
  let currentConversions :=
    calculateConversionRates currentSessions currentLeads currentContacts currentTransactions
  let previousConversions :=
    calculateConversionRates previousSessions previousLeads previousContacts
      previousTransactions
  currentConversions.mapIdx (fun index stage =>
    let previous := ((previousConversions.get? index).map (fun p => p.current)).getD 0
    let percentageChange :=
      if previous > 0 then ((stage.current - previous) / previous) * 100 else 0
    let isSignificant :=
      if previous > 0 then isChangeSigificant stage.current previous else false
    { stage with
        previous := previous
        percentageChange := percentageChange
        isSignificant := isSignificant })

/-- Helper: inversion for membership in a `mapIdx` image. -/
theorem exists_of_mem_mapIdx {α β : Type} {f : ℕ → α → β} {l : List α} {y : β}
    (h : y ∈ List.mapIdx f l) : ∃ i x, x ∈ l ∧ y = f i x := by
  rw [List.mapIdx_eq_enum_map] at h
  obtain ⟨⟨i, x⟩, hmem, rfl⟩ := List.mem_map.1 h
  have h2 := List.mem_enum hmem
  exact ⟨i, x, h2.2 ▸ List.getElem_mem _, rfl⟩

/-- C1 counterexample: composing the metrics trend with previous-period
value `0` and current value `5` emits `isSignificant = false`, not
`true` — the composers force `false` whenever the previous value is not
positive, bypassing the zero-baseline rule of `isChangeSigificant`. -/
theorem zero_previous_not_flagged_significant :
    ((calculateMetricsTrend [⟨"t1", "a1", "m1", "2024-06-10 08:00:00", 5, true⟩]
        [⟨"2024-06-10", "a1", 0, 1, 0⟩] [] []).roas.previous = 0
      ∧ 0 < (calculateMetricsTrend [⟨"t1", "a1", "m1", "2024-06-10 08:00:00", 5, true⟩]
        [⟨"2024-06-10", "a1", 0, 1, 0⟩] [] []).roas.current)
    ∧ ¬ ((calculateMetricsTrend [⟨"t1", "a1", "m1", "2024-06-10 08:00:00", 5, true⟩]
        [⟨"2024-06-10", "a1", 0, 1, 0⟩] [] []).roas.isSignificant = true) := by
  norm_num [calculateMetricsTrend, calculateROAS]

/-- C1 amended: for every trend composed by the Trend Composer (ROAS,
CAC, each funnel stage), if the previous-period value is `0` the
emitted record has `isSignificant = false` and `percentageChange = 0`
(regardless of the current value). -/
theorem zero_previous_trend_fields :
    (∀ ct cs pt ps, (calculateMetricsTrend ct cs pt ps).roas.previous = 0 →
      (calculateMetricsTrend ct cs pt ps).roas.isSignificant = false
        ∧ (calculateMetricsTrend ct cs pt ps).roas.percentageChange = 0)
    ∧ (∀ ct cs pt ps, (calculateMetricsTrend ct cs pt ps).cac.previous = 0 →
      (calculateMetricsTrend ct cs pt ps).cac.isSignificant = false
        ∧ (calculateMetricsTrend ct cs pt ps).cac.percentageChange = 0)
    ∧ (∀ cs cl cc ct ps pl pc pt st,
      st ∈ calculateConversionsTrend cs cl cc ct ps pl pc pt → st.previous = 0 →
      st.isSignificant = false ∧ st.percentageChange = 0) := by
  refine ⟨?_, ?_, ?_⟩
  · intro ct cs pt ps h
    simp only [calculateMetricsTrend] at h ⊢
    rw [h]
    norm_num
  · intro ct cs pt ps h
    simp only [calculateMetricsTrend] at h ⊢
    rw [h]
    norm_num
  · intro cs cl cc ct ps pl pc pt st hmem hprev
    obtain ⟨i, x, hx, rfl⟩ := exists_of_mem_mapIdx hmem
    simp only at hprev ⊢
    rw [hprev]
    norm_num

/-- Witness for `zero_previous_trend_fields` at a concrete input. -/
theorem zero_previous_trend_fields_witness :
    (calculateMetricsTrend [⟨"t1", "a1", "m1", "2024-06-10 08:00:00", 5, true⟩]
        [⟨"2024-06-10", "a1", 0, 1, 0⟩] [] []).roas.isSignificant = false
    ∧ (calculateMetricsTrend [⟨"t1", "a1", "m1", "2024-06-10 08:00:00", 5, true⟩]
        [⟨"2024-06-10", "a1", 0, 1, 0⟩] [] []).roas.percentageChange = 0 :=
  zero_previous_trend_fields.1
    [⟨"t1", "a1", "m1", "2024-06-10 08:00:00", 5, true⟩]
    [⟨"2024-06-10", "a1", 0, 1, 0⟩] [] [] (by norm_num [calculateMetricsTrend])

/-- C8: for a positive previous value, significance is
`|percentageChange| >= threshold` with an inclusive boundary at the
default threshold `10`; a composed trend with `previous = 100,
current = 109` has `percentageChange = 9` and is not significant, while
`current = 110` has `percentageChange = 10` exactly and is
significant. -/
theorem significance_boundary_inclusive :
    (∀ current previous : ℚ, 0 < previous →
      (isChangeSigificant current previous = true ↔
        10 ≤ |((current - previous) / previous) * 100|))
    ∧ (calculateMetricsTrend [⟨"t1", "a1", "m1", "2024-06-10 08:00:00", 109, false⟩]
        [⟨"2024-06-10", "a1", 0, 1, 0⟩]
        [⟨"t0", "a1", "m0", "2024-05-20 08:00:00", 100, false⟩]
        [⟨"2024-05-20", "a1", 0, 1, 0⟩]).roas.percentageChange = 9
    ∧ (calculateMetricsTrend [⟨"t1", "a1", "m1", "2024-06-10 08:00:00", 109, false⟩]
        [⟨"2024-06-10", "a1", 0, 1, 0⟩]
        [⟨"t0", "a1", "m0", "2024-05-20 08:00:00", 100, false⟩]
        [⟨"2024-05-20", "a1", 0, 1, 0⟩]).roas.isSignificant = false
    ∧ (calculateMetricsTrend [⟨"t1", "a1", "m1", "2024-06-10 08:00:00", 110, false⟩]
        [⟨"2024-06-10", "a1", 0, 1, 0⟩]
        [⟨"t0", "a1", "m0", "2024-05-20 08:00:00", 100, false⟩]
        [⟨"2024-05-20", "a1", 0, 1, 0⟩]).roas.percentageChange = 10
    ∧ (calculateMetricsTrend [⟨"t1", "a1", "m1", "2024-06-10 08:00:00", 110, false⟩]
        [⟨"2024-06-10", "a1", 0, 1, 0⟩]
        [⟨"t0", "a1", "m0", "2024-05-20 08:00:00", 100, false⟩]
        [⟨"2024-05-20", "a1", 0, 1, 0⟩]).roas.isSignificant = true := by
  refine ⟨?_, ?_, ?_, ?_, ?_⟩
  · intro current previous h
    simp [isChangeSigificant, ne_of_gt h]
  · norm_num [calculateMetricsTrend, calculateROAS]
  · norm_num [calculateMetricsTrend, calculateROAS, isChangeSigificant]
  · norm_num [calculateMetricsTrend, calculateROAS]
  · norm_num [calculateMetricsTrend, calculateROAS, isChangeSigificant]

/-- Witness for `significance_boundary_inclusive` at the inclusive
boundary: a change of exactly the threshold is significant. -/
theorem significance_boundary_inclusive_witness :
    isChangeSigificant 110 100 = true ↔ 10 ≤ |(((110 : ℚ) - 100) / 100) * 100| :=
  significance_boundary_inclusive.1 110 100 (by norm_num)

/-! ## Channel distribution (src/services/data-analysis.ts) -/

/-- Per-period channel statistics. -/
structure ChannelPeriodStat where
  sessions : ℕ
  percentage : ℚ
  deriving DecidableEq, Repr

/-- One channel's entry in the distribution analysis. -/
structure ChannelEntry where
  name : String
  current : ChannelPeriodStat
  previous : ChannelPeriodStat
  change : ℚ
  deriving DecidableEq, Repr

/-- Increment-or-insert on an insertion-ordered association list,
modelling `channelCounts.set(channel, currentCount + 1)` on a JS
`Map`. -/
def bumpCount : List (String × ℕ) → String → List (String × ℕ)
  | [], key => [(key, 1)]
  | (k, v) :: rest, key =>
    if k = key then (k, v + 1) :: rest else (k, v) :: bumpCount rest key

/-- The `channelCounts` map of `analyzeChannelDistribution`: per
`sourceGroupName` count of atom directory entries, in first-insertion
order. -/
def channelCounts (atoms : List Atom) : List (String × ℕ) :=
  atoms.foldl (fun counts atom => bumpCount counts atom.sourceGroupName) []

/-- `analyzeChannelDistribution` (src/services/data-analysis.ts): counts
atom directory entries per channel group (not session attribution) and
divides by `max(totalSessions, 1)` for the percentage. -/
def analyzeChannelDistribution (sessions : List Session) (atoms : List Atom) :
    List ChannelEntry :=
  let totalSessions := sessions.length
  (channelCounts atoms).map (fun p =>
    { name := p.1
      current := { sessions := p.2, percentage := ((p.2 : ℚ) / (max totalSessions 1 : ℕ)) * 100 }
      previous := { sessions := 0, percentage := 0 }
      change := 0 })

/-- JS `Map.set`: replace the value when the key is present, otherwise
append, preserving insertion order. -/
def jsMapSet (m : List (String × ChannelPeriodStat)) (key : String)
    (val : ChannelPeriodStat) : List (String × ChannelPeriodStat) :=
  match m with
  | [] => [(key, val)]
  | (k, v) :: rest =>
    if k = key then (k, val) :: rest else (k, v) :: jsMapSet rest key val

/-- `calculateChannelsTrend` (src/utils/trend-analysis.ts). -/
def calculateChannelsTrend (currentSessions previousSessions : List Session)
    (atoms : List Atom) : List ChannelEntry :=
  let currentChannels := analyzeChannelDistribution currentSessions atoms
  let previousChannels := analyzeChannelDistribution previousSessions atoms
  let previousChannelMap :=
    previousChannels.foldl (fun m channel => jsMapSet m channel.name channel.current) []
  currentChannels.map (fun currentChannel =>
    let previousData :=
      ((previousChannelMap.find? (fun p => p.1 == currentChannel.name)).map
        (fun p => p.2)).getD ⟨0, 0⟩
    let change :=
      if previousData.percentage > 0 then
        ((currentChannel.current.percentage - previousData.percentage) /
          previousData.percentage) * 100
      else 0
    { currentChannel with previous := previousData, change := change })

/-! Association-list lemmas for the channel-count map. -/

theorem bumpCount_keys (l : List (String × ℕ)) (key : String) :
    (bumpCount l key).map Prod.fst =
      if key ∈ l.map Prod.fst then l.map Prod.fst else l.map Prod.fst ++ [key] := by
  induction l with
  | nil => simp [bumpCount]
  | cons p rest ih =>
    obtain ⟨k, v⟩ := p
    by_cases hk : k = key
    · subst hk
      simp [bumpCount]
    · simp only [bumpCount, if_neg hk, List.map_cons]
      rw [ih]
      by_cases hmem : key ∈ rest.map Prod.fst
      · simp [hmem, hk, Ne.symm hk]
      · simp [hmem, hk, Ne.symm hk]

theorem mem_bumpCount_keys (l : List (String × ℕ)) (key k : String) :
    (k ∈ (bumpCount l key).map Prod.fst) ↔ (k ∈ l.map Prod.fst ∨ k = key) := by
  rw [bumpCount_keys]
  by_cases hmem : key ∈ l.map Prod.fst
  · simp only [if_pos hmem]
    constructor
    · exact Or.inl
    · rintro (h | rfl)
      · exact h
      · exact hmem
  · simp [if_neg hmem]

theorem bumpCount_keys_nodup (l : List (String × ℕ)) (key : String)
    (h : (l.map Prod.fst).Nodup) : ((bumpCount l key).map Prod.fst).Nodup := by
  rw [bumpCount_keys]
  by_cases hmem : key ∈ l.map Prod.fst
  · simpa [hmem] using h
  · simp only [if_neg hmem]
    exact List.Nodup.append h (List.nodup_singleton key) (by simpa using hmem)

/-- The value stored under `k` in an association list, `0` when
absent. -/
def valOf (l : List (String × ℕ)) (k : String) : ℕ :=
  ((l.find? (fun p => p.1 == k)).map (fun p => p.2)).getD 0

theorem valOf_nil (k : String) : valOf [] k = 0 := rfl

theorem valOf_cons (k0 : String) (v0 : ℕ) (rest : List (String × ℕ)) (k : String) :
    valOf ((k0, v0) :: rest) k = if k0 = k then v0 else valOf rest k := by
  by_cases h : k0 = k
  · rw [valOf, List.find?_cons_of_pos _ (by simpa using h)]
    simp [h]
  · rw [valOf, List.find?_cons_of_neg _ (by simpa using h)]
    simp [h, valOf]

theorem bumpCount_cons (k0 : String) (v0 : ℕ) (rest : List (String × ℕ)) (key : String) :
    bumpCount ((k0, v0) :: rest) key =
      if k0 = key then (k0, v0 + 1) :: rest else (k0, v0) :: bumpCount rest key := rfl

theorem valOf_bumpCount (l : List (String × ℕ)) (key k : String) :
    valOf (bumpCount l key) k = valOf l k + (if k = key then 1 else 0) := by
  induction l with
  | nil =>
    by_cases hk : k = key
    · subst hk
      simp [bumpCount, valOf_cons, valOf_nil]
    · simp [bumpCount, valOf_cons, valOf_nil, Ne.symm hk, hk]
  | cons p rest ih =>
    obtain ⟨k0, v0⟩ := p
    rw [bumpCount_cons]
    by_cases h0 : k0 = key
    · rw [if_pos h0, valOf_cons, valOf_cons]
      by_cases hk : k0 = k
      · have hkk : k = key := by rw [← hk, h0]
        simp [hk, hkk]
      · have hkk : ¬ k = key := fun h => hk (by rw [h0, h])
        simp [hk, hkk]
    · rw [if_neg h0, valOf_cons, valOf_cons]
      by_cases hk : k0 = k
      · have hkk : ¬ k = key := fun h => h0 (by rw [hk, h])
        simp [hk, hkk]
      · simp [hk, ih]

/-- Spec-side helper: number of atom directory entries whose
`sourceGroupName` is `k`. -/
def atomEntriesInGroup (atoms : List Atom) (k : String) : ℕ :=
  (atoms.filter (fun a => a.sourceGroupName = k)).length

theorem valOf_channelCounts_aux (l : List Atom) (acc : List (String × ℕ)) (k : String) :
    valOf (l.foldl (fun counts atom => bumpCount counts atom.sourceGroupName) acc) k =
      valOf acc k + atomEntriesInGroup l k := by
  induction l generalizing acc with
  | nil => simp [atomEntriesInGroup]
  | cons a rest ih =>
    rw [List.foldl_cons, ih, valOf_bumpCount]
    by_cases h : a.sourceGroupName = k
    · simp only [atomEntriesInGroup, List.filter_cons, h]
      simp [atomEntriesInGroup, h.symm]
      omega
    · have h2 : ¬ k = a.sourceGroupName := fun hh => h hh.symm
      simp only [atomEntriesInGroup, List.filter_cons]
      simp [h, h2, atomEntriesInGroup]

theorem valOf_channelCounts (atoms : List Atom) (k : String) :
    valOf (channelCounts atoms) k = atomEntriesInGroup atoms k := by
  rw [channelCounts, valOf_channelCounts_aux, valOf_nil, Nat.zero_add]

theorem channelCounts_keys_mem_aux (l : List Atom) (acc : List (String × ℕ)) (k : String) :
    k ∈ (l.foldl (fun counts atom => bumpCount counts atom.sourceGroupName) acc).map Prod.fst
      ↔ k ∈ acc.map Prod.fst ∨ k ∈ l.map (fun a => a.sourceGroupName) := by
  induction l generalizing acc with
  | nil => simp
  | cons a rest ih =>
    rw [List.foldl_cons, ih]
    rw [mem_bumpCount_keys]
    simp only [List.map_cons, List.mem_cons]
    tauto

theorem channelCounts_keys_mem (atoms : List Atom) (k : String) :
    k ∈ (channelCounts atoms).map Prod.fst ↔ k ∈ atoms.map (fun a => a.sourceGroupName) := by
  rw [channelCounts, channelCounts_keys_mem_aux]
  simp

theorem channelCounts_keys_nodup_aux (l : List Atom) (acc : List (String × ℕ))
    (h : (acc.map Prod.fst).Nodup) :
    ((l.foldl (fun counts atom => bumpCount counts atom.sourceGroupName) acc).map
      Prod.fst).Nodup := by
  induction l generalizing acc with
  | nil => exact h
  | cons a rest ih =>
    rw [List.foldl_cons]
    exact ih _ (bumpCount_keys_nodup _ _ h)

theorem channelCounts_keys_nodup (atoms : List Atom) :
    ((channelCounts atoms).map Prod.fst).Nodup :=
  channelCounts_keys_nodup_aux atoms [] (by simp)

/-- In an association list with distinct keys, `find?` on a key returns
exactly the entry holding it. -/
theorem find_entry_of_nodup_keys {β : Type} (l : List (String × β)) (k : String) (v : β)
    (hnd : (l.map Prod.fst).Nodup) (hmem : (k, v) ∈ l) :
    l.find? (fun p => p.1 == k) = some (k, v) := by
  induction l with
  | nil => cases hmem
  | cons p rest ih =>
    obtain ⟨k0, v0⟩ := p
    rw [List.map_cons] at hnd
    have hnd' := List.nodup_cons.1 hnd
    rcases List.mem_cons.1 hmem with heq | hmem'
    · cases heq
      exact List.find?_cons_of_pos _ (by simp)
    · have hk : ¬ (k0 = k) := by
        intro h
        subst h
        exact hnd'.1 (List.mem_map.2 ⟨(k0, v), hmem', rfl⟩)
      rw [List.find?_cons_of_neg _ (by simpa using hk)]
      exact ih hnd'.2 hmem'

theorem jsMapSet_of_not_mem (m : List (String × ChannelPeriodStat)) (key : String)
    (val : ChannelPeriodStat) (h : key ∉ m.map Prod.fst) :
    jsMapSet m key val = m ++ [(key, val)] := by
  induction m with
  | nil => rfl
  | cons p rest ih =>
    obtain ⟨k0, v0⟩ := p
    have hk : ¬ (k0 = key) := by
      intro hh
      exact h (by simp [hh])
    rw [jsMapSet, if_neg hk, List.cons_append, ih (fun hmem => h (by simp [hmem]))]

theorem buildMap_eq_map (entries : List ChannelEntry)
    (acc : List (String × ChannelPeriodStat))
    (h : (acc.map Prod.fst ++ entries.map (fun c => c.name)).Nodup) :
    entries.foldl (fun m channel => jsMapSet m channel.name channel.current) acc =
      acc ++ entries.map (fun c => (c.name, c.current)) := by
  induction entries generalizing acc with
  | nil => simp
  | cons c rest ih =>
    rw [List.foldl_cons]
    have hnotmem : c.name ∉ acc.map Prod.fst := by
      intro hmem
      rcases List.nodup_append.1 h with ⟨h1, h2, h3⟩
      exact h3 hmem (by simp)
    rw [jsMapSet_of_not_mem _ _ _ hnotmem]
    rw [ih (acc ++ [(c.name, c.current)]) (by simpa using h)]
    simp

/-- C4 counterexample: with one session and two atom entries in the same
channel group, the reported percentage of the single reported group is
`200`, so the percentages do not sum to `100` although the atoms list is
non-empty. -/
theorem channel_percentages_not_share_of_total :
    ((analyzeChannelDistribution
        [⟨"s1", "m1", "u1", "g1", "2024-06-10 08:00:00", "mobile"⟩]
        [⟨"a1", "n1", "src", "Paid", "paid"⟩, ⟨"a2", "n2", "src", "Paid", "paid"⟩]).map
      (fun c => c.current.percentage)).sum ≠ 100 := by
  norm_num [analyzeChannelDistribution, channelCounts, bumpCount]

/-- C4 amended: channel distribution reports one entry per distinct
`sourceGroupName` in the atoms directory, whose count is the number of
atom directory entries in that group and whose percentage is
`count / max(sessionCount, 1) * 100` — the denominator is the session
count, not the atom total, so the percentages need not sum to 100. -/
theorem channel_distribution_structure :
    ∀ (sessions : List Session) (atoms : List Atom),
      ((analyzeChannelDistribution sessions atoms).map (fun c => c.name)).Nodup
      ∧ (∀ g, g ∈ (analyzeChannelDistribution sessions atoms).map (fun c => c.name) ↔
          g ∈ atoms.map (fun a => a.sourceGroupName))
      ∧ (∀ e ∈ analyzeChannelDistribution sessions atoms,
          e.current.sessions = atomEntriesInGroup atoms e.name
          ∧ e.current.percentage =
              ((e.current.sessions : ℚ) / ((max sessions.length 1 : ℕ) : ℚ)) * 100) := by
  intro sessions atoms
  have hnames : (analyzeChannelDistribution sessions atoms).map (fun c => c.name) =
      (channelCounts atoms).map Prod.fst := by
    simp [analyzeChannelDistribution]
  refine ⟨?_, ?_, ?_⟩
  · rw [hnames]
    exact channelCounts_keys_nodup atoms
  · intro g
    rw [hnames]
    exact channelCounts_keys_mem atoms g
  · intro e he
    rw [analyzeChannelDistribution] at he
    obtain ⟨p, hp, rfl⟩ := List.mem_map.1 he
    have hval : p.2 = atomEntriesInGroup atoms p.1 := by
      rw [← valOf_channelCounts]
      have hfind := find_entry_of_nodup_keys (channelCounts atoms) p.1 p.2
        (channelCounts_keys_nodup atoms) (by simpa using hp)
      rw [valOf, hfind]
      rfl
    exact ⟨hval, rfl⟩

/-- Witness for `channel_distribution_structure` at a concrete input. -/
theorem channel_distribution_structure_witness :
    ∃ e ∈ analyzeChannelDistribution
        [⟨"s1", "m1", "u1", "g1", "2024-06-10 08:00:00", "mobile"⟩]
        [⟨"a1", "n1", "src", "Paid", "paid"⟩, ⟨"a2", "n2", "src", "Paid", "paid"⟩],
      e.current.sessions = atomEntriesInGroup
        [⟨"a1", "n1", "src", "Paid", "paid"⟩, ⟨"a2", "n2", "src", "Paid", "paid"⟩] e.name := by
  have h := (channel_distribution_structure
    [⟨"s1", "m1", "u1", "g1", "2024-06-10 08:00:00", "mobile"⟩]
    [⟨"a1", "n1", "src", "Paid", "paid"⟩, ⟨"a2", "n2", "src", "Paid", "paid"⟩]).2.2
  refine ⟨⟨"Paid", ⟨2, 200⟩, ⟨0, 0⟩, 0⟩, ?_, ?_⟩
  · norm_num [analyzeChannelDistribution, channelCounts, bumpCount]
  · exact (h _ (by norm_num [analyzeChannelDistribution, channelCounts, bumpCount])).1

/-- The names reported by the channel distribution are the keys of the
channel-count map, independent of the sessions input. -/
theorem analyzeChannelDistribution_names (sessions : List Session) (atoms : List Atom) :
    (analyzeChannelDistribution sessions atoms).map (fun c => c.name) =
      (channelCounts atoms).map Prod.fst := by
  simp [analyzeChannelDistribution]

/-- C10: per-channel session counts do not depend on the sessions input
(they count atom directory entries), so any two session lists produce
the same channel names and counts, and in every composed channels trend
each channel's previous session count equals its current one. -/
theorem channel_sessions_counts_independent :
    ∀ (s1 s2 : List Session) (atoms : List Atom),
      ((analyzeChannelDistribution s1 atoms).map (fun c => (c.name, c.current.sessions))
        = (analyzeChannelDistribution s2 atoms).map (fun c => (c.name, c.current.sessions)))
      ∧ (∀ ch ∈ calculateChannelsTrend s1 s2 atoms,
          ch.previous.sessions = ch.current.sessions) := by
  intro s1 s2 atoms
  constructor
  · simp [analyzeChannelDistribution, List.map_map]
  · intro ch hch
    simp only [calculateChannelsTrend] at hch
    obtain ⟨c, hc, rfl⟩ := List.mem_map.1 hch
    have hnd2 : (([] : List (String × ChannelPeriodStat)).map Prod.fst ++
        (analyzeChannelDistribution s2 atoms).map (fun c => c.name)).Nodup := by
      rw [List.map_nil, List.nil_append, analyzeChannelDistribution_names]
      exact channelCounts_keys_nodup atoms
    have hbuild := buildMap_eq_map (analyzeChannelDistribution s2 atoms) [] hnd2
    simp only [List.nil_append] at hbuild
    rw [hbuild]
    simp only [analyzeChannelDistribution] at hc
    obtain ⟨p, hp, rfl⟩ := List.mem_map.1 hc
    have hfind : ((analyzeChannelDistribution s2 atoms).map
        (fun c => (c.name, c.current))).find? (fun q => q.1 == p.1) =
        some (p.1, ⟨p.2, ((p.2 : ℚ) / ((max s2.length 1 : ℕ) : ℚ)) * 100⟩) := by
      refine find_entry_of_nodup_keys _ _ _ ?_ ?_
      · have hkeys : ((analyzeChannelDistribution s2 atoms).map
            (fun c => (c.name, c.current))).map Prod.fst =
            (analyzeChannelDistribution s2 atoms).map (fun c => c.name) := by
          simp [List.map_map]
        rw [hkeys, analyzeChannelDistribution_names]
        exact channelCounts_keys_nodup atoms
      · simp only [analyzeChannelDistribution, List.map_map]
        exact List.mem_map.2 ⟨p, hp, rfl⟩
    simp only [hfind]
    rfl

/-- Witness for `channel_sessions_counts_independent` at concrete
inputs: one session vs. no sessions over a one-atom directory. -/
theorem channel_sessions_counts_independent_witness :
    (⟨"Paid", ⟨1, 100⟩, ⟨1, 100⟩, 0⟩ : ChannelEntry).previous.sessions =
      (⟨"Paid", ⟨1, 100⟩, ⟨1, 100⟩, 0⟩ : ChannelEntry).current.sessions :=
  (channel_sessions_counts_independent
      [⟨"s1", "m1", "u1", "g1", "2024-06-10 08:00:00", "mobile"⟩] []
      [⟨"a1", "n1", "src", "Paid", "paid"⟩]).2
    ⟨"Paid", ⟨1, 100⟩, ⟨1, 100⟩, 0⟩
    (by norm_num [calculateChannelsTrend, analyzeChannelDistribution, channelCounts,
      bumpCount, jsMapSet, List.find?])

/-! ## Data-quality validator (src/services/data-analysis.ts) -/

/-- Result of `checkDataValidity`. -/
structure ValidationResult where
  isValid : Bool
  issues : List String
  suggestions : List String
  deriving DecidableEq, Repr

/-- JS `Number.prototype.toFixed(2)` on a rational (rendered with
round-half-up; only used inside advisory message strings). -/
def toFixed2 (q : ℚ) : String :=
  let n : ℤ := round (q * 100)
  let sign := if n < 0 then "-" else ""
  let m := n.natAbs
  let intPart := m / 100
  let fracPart := m % 100
  sign ++ toString intPart ++ "." ++ (if fracPart < 10 then "0" else "") ++ toString fracPart

/-- `checkDataValidity` (src/services/data-analysis.ts): empty-dataset
issues, lead/session and transaction/contact coverage issues, and a
session-volume check against an expected `1000` sessions per day; it
only reports, `isValid` is `issues.length == 0`. -/
def checkDataValidity (sessions : List Session) (leads : List Lead)
    (contacts : List Contact) (transactions : List Transaction)
    (sourceData : List SourceData) (atoms : List Atom) : ValidationResult :=
  let emptyIssues : List String :=
    (if sessions.length = 0 then ["Sessions dataset is empty"] else []) ++
    (if leads.length = 0 then ["Leads dataset is empty"] else []) ++
    (if contacts.length = 0 then ["Contacts dataset is empty"] else []) ++
    (if transactions.length = 0 then ["Transactions dataset is empty"] else []) ++
    (if sourceData.length = 0 then ["Source data dataset is empty"] else []) ++
    (if atoms.length = 0 then ["Atoms dataset is empty"] else [])
  let sessionMcIds := ((sessions.filter (fun s => !(s.mcid == ""))).map (fun s => s.mcid)).dedup
  let leadMcIds := (leads.map (fun l => l.mcId)).dedup
  let contactMcIds := (contacts.map (fun c => c.mcId)).dedup
  let transactionMcIds := (transactions.map (fun t => t.mcId)).dedup
  let leadsWithoutSessions := leadMcIds.filter (fun i => !(sessionMcIds.contains i))
  let leadIssues : List String :=
    if leadsWithoutSessions.length > 0 then
      [toFixed2 (((leadsWithoutSessions.length : ℚ) / (leadMcIds.length : ℚ)) * 100) ++
        "% of leads have no corresponding session data"]
    else []
  let leadSuggestions : List String :=
    if leadsWithoutSessions.length > 0 then
      ["Improve session tracking to ensure all leads have associated session data"]
    else []
  let transactionsWithoutContacts :=
    transactionMcIds.filter (fun i => !(contactMcIds.contains i))
  let txIssues : List String :=
    if transactionsWithoutContacts.length > 0 then
      [toFixed2 (((transactionsWithoutContacts.length : ℚ) /
          (transactionMcIds.length : ℚ)) * 100) ++
        "% of transactions have no corresponding contact data"]
    else []
  let txSuggestions : List String :=
    if transactionsWithoutContacts.length > 0 then
      ["Improve contact tracking to ensure all transactions have associated contact data"]
    else []
  let expectedSessionsPerDay : ℕ := 1000
  let sessionsPerDay := sessions.length
  let volumeIssues : List String :=
    if (sessionsPerDay : ℚ) < (expectedSessionsPerDay : ℚ) * (7 / 10) then
      ["Session volume (" ++ toString sessionsPerDay ++
        ") is significantly lower than expected (" ++ toString expectedSessionsPerDay ++ ")"]
    else []
  let volumeSuggestions : List String :=
    if (sessionsPerDay : ℚ) < (expectedSessionsPerDay : ℚ) * (7 / 10) then
      ["Check if there are tracking issues or a genuine decrease in traffic"]
    else []
  let issues := emptyIssues ++ leadIssues ++ txIssues ++ volumeIssues
  let suggestions := leadSuggestions ++ txSuggestions ++ volumeSuggestions
  { isValid := issues.length == 0
    issues := issues
    suggestions := suggestions }

/-- C3 counterexample: the all-empty dataset produces 7 issues, not 6 —
the six empty-collection issues plus the low-session-volume issue
(`0 < 0.7 * 1000`). -/
theorem all_empty_validation_issue_count :
    (checkDataValidity [] [] [] [] [] []).issues.length ≠ 6 := by
  norm_num [checkDataValidity]

/-- C3 amended: validating the all-empty dataset yields
`isValid = false` with exactly 7 issues — one per empty collection plus
the session-volume issue — and the (total, never-raising) validator
reports `isValid = true` exactly when the issues list is empty. -/
theorem all_empty_validation_issues :
    (checkDataValidity [] [] [] [] [] []).isValid = false
    ∧ (checkDataValidity [] [] [] [] [] []).issues =
        ["Sessions dataset is empty", "Leads dataset is empty", "Contacts dataset is empty",
         "Transactions dataset is empty", "Source data dataset is empty",
         "Atoms dataset is empty",
         "Session volume (0) is significantly lower than expected (1000)"]
    ∧ (∀ sessions leads contacts transactions sourceData atoms,
        (checkDataValidity sessions leads contacts transactions sourceData atoms).isValid
            = true
          ↔ (checkDataValidity sessions leads contacts transactions sourceData
              atoms).issues = []) := by
  refine ⟨?_, ?_, ?_⟩
  · norm_num [checkDataValidity]
  · norm_num [checkDataValidity]
    decide
  · intro sessions leads contacts transactions sourceData atoms
    simp only [checkDataValidity, Nat.beq_eq, beq_iff_eq, List.length_eq_zero]

/-! ## Calendar arithmetic (src/utils/date-utils.ts,
`calculatePreviousPeriodStartDate`), modelled for a UTC environment. -/

/-- Gregorian leap-year rule. -/
def isLeapYear (y : ℤ) : Bool :=
  (y % 4 == 0 && y % 100 != 0) || y % 400 == 0

/-- Days in a month (month out of `1..12` falls back to 31; callers
stay in range). -/
def daysInMonth (y m : ℤ) : ℤ :=
  if m = 2 then (if isLeapYear y then 29 else 28)
  else if m = 4 ∨ m = 6 ∨ m = 9 ∨ m = 11 then 30
  else 31

/-- JS `Date.prototype.setDate` day-of-month normalisation in UTC: an
out-of-range day number is resolved by walking months backwards or
forwards.  Fuelled recursion; callers supply ample fuel. -/
def normDate : ℕ → ℤ × ℤ × ℤ → ℤ × ℤ × ℤ
  | 0, x => x
  | fuel + 1, (y, m, day) =>
    if day < 1 then
      normDate fuel (if m = 1 then y - 1 else y, if m = 1 then 12 else m - 1,
        day + daysInMonth (if m = 1 then y - 1 else y) (if m = 1 then 12 else m - 1))
    else if day > daysInMonth y m then
      normDate fuel (if m = 12 then y + 1 else y, if m = 12 then 1 else m + 1,
        day - daysInMonth y m)
    else (y, m, day)

/-- Spec-side calendar predecessor: the date one day earlier. -/
def predDay : ℤ × ℤ × ℤ → ℤ × ℤ × ℤ
  | (y, m, d) =>
    if 1 < d then (y, m, d - 1)
    else if m = 1 then (y - 1, 12, 31)
    else (y, m - 1, daysInMonth y (m - 1))

/-- Valid calendar date. -/
def ValidYMD (y m d : ℤ) : Prop :=
  1 ≤ m ∧ m ≤ 12 ∧ 1 ≤ d ∧ d ≤ daysInMonth y m

/-- The decimal digit character for `n % 10`. -/
def digitChar (n : ℕ) : Char := Char.ofNat (48 + n % 10)

/-- Numeric value of a decimal digit character. -/
def digitVal (c : Char) : ℕ := c.toNat - 48

/-- `YYYY-MM-DD` rendering (the date part of JS `toISOString` for
four-digit years). -/
def formatYMD : ℤ × ℤ × ℤ → String
  | (y, m, d) =>
    let yn := y.toNat
    let mn := m.toNat
    let dn := d.toNat
    String.mk [digitChar (yn / 1000), digitChar (yn / 100), digitChar (yn / 10), digitChar yn,
      '-', digitChar (mn / 10), digitChar mn, '-', digitChar (dn / 10), digitChar dn]

/-- Parsing of a `YYYY-MM-DD` date string as JS `new Date(...)` accepts
it (fixed-width fields, in-range month and day); anything else is an
invalid date. -/
def parseYMD (s : String) : Option (ℕ × ℕ × ℕ) :=
  match s.data with
  | [y1, y2, y3, y4, h1, n1, n2, h2, d1, d2] =>
    if y1.isDigit && y2.isDigit && y3.isDigit && y4.isDigit && (h1 == '-') &&
        n1.isDigit && n2.isDigit && (h2 == '-') && d1.isDigit && d2.isDigit then
      let y := digitVal y1 * 1000 + digitVal y2 * 100 + digitVal y3 * 10 + digitVal y4
      let m := digitVal n1 * 10 + digitVal n2
      let d := digitVal d1 * 10 + digitVal d2
      if 1 ≤ m && m ≤ 12 && 1 ≤ d && decide ((d : ℤ) ≤ daysInMonth (y : ℤ) (m : ℤ)) then
        some (y, m, d)
      else none
    else none
  | _ => none

/-- `calculatePreviousPeriodStartDate` (src/utils/date-utils.ts) in the
UTC model: parse the date, set the day-of-month to
`day - lookbackDays` with JS normalisation, format `YYYY-MM-DD`.
`none` models the JS "Invalid Date" whose `toISOString` throws.
Default `lookbackDays` is 30. -/
def calculatePreviousPeriodStartDate (currentDate : String) (lookbackDays : ℕ := 30) :
    Option String :=
  (parseYMD currentDate).map (fun ymd =>
    formatYMD (normDate (lookbackDays + 2)
      ((ymd.1 : ℤ), (ymd.2.1 : ℤ), (ymd.2.2 : ℤ) - (lookbackDays : ℤ))))

theorem daysInMonth_bounds (y m : ℤ) : 28 ≤ daysInMonth y m ∧ daysInMonth y m ≤ 31 := by
  unfold daysInMonth
  split_ifs <;> omega

theorem daysInMonth_twelve (y : ℤ) : daysInMonth y 12 = 31 := by
  norm_num [daysInMonth]

theorem normDate_of_valid (fuel : ℕ) (y m d : ℤ) (h1 : 1 ≤ d) (h2 : d ≤ daysInMonth y m) :
    normDate fuel (y, m, d) = (y, m, d) := by
  cases fuel with
  | zero => rfl
  | succ f =>
    rw [normDate, if_neg (by omega), if_neg (by omega)]

theorem normDate_pred : ∀ (fuel : ℕ) (y m i : ℤ), 1 ≤ m → m ≤ 12 →
    i ≤ daysInMonth y m → 2 - i ≤ 28 * (fuel : ℤ) →
    normDate fuel (y, m, i - 1) = predDay (normDate fuel (y, m, i)) := by
  intro fuel
  induction fuel with
  | zero =>
    intro y m i hm1 hm2 hi hf
    have h2 : 2 ≤ i := by omega
    rw [normDate, normDate, predDay, if_pos (by omega)]
  | succ f ih =>
    intro y m i hm1 hm2 hi hf
    have hdim := daysInMonth_bounds y m
    have hdim2 := daysInMonth_bounds (if m = 1 then y - 1 else y) (if m = 1 then 12 else m - 1)
    by_cases hc : i ≤ 0
    · rw [normDate, if_pos (by omega)]
      conv_rhs => rw [normDate, if_pos (by omega)]
      have hm2' : 1 ≤ (if m = 1 then 12 else m - 1) ∧ (if m = 1 then 12 else m - 1) ≤ 12 := by
        by_cases hm : m = 1 <;> simp [hm] <;> omega
      have harg : i - 1 + daysInMonth (if m = 1 then y - 1 else y) (if m = 1 then 12 else m - 1)
          = (i + daysInMonth (if m = 1 then y - 1 else y) (if m = 1 then 12 else m - 1)) - 1 := by
        ring
      rw [harg]
      exact ih _ _ _ hm2'.1 hm2'.2 (by omega) (by omega)
    · by_cases h1 : i = 1
      · subst h1
        rw [normDate, if_pos (by omega)]
        rw [normDate_of_valid f (if m = 1 then y - 1 else y) (if m = 1 then 12 else m - 1)
          (1 - 1 + daysInMonth (if m = 1 then y - 1 else y) (if m = 1 then 12 else m - 1))
          (by omega) (by omega)]
        rw [normDate_of_valid (f + 1) y m 1 (by omega) (by omega)]
        by_cases hm : m = 1
        · subst hm
          norm_num [predDay, daysInMonth_twelve, Prod.mk.injEq]
        · rw [predDay, if_neg (by omega), if_neg hm]
          simp only [if_neg hm]
          norm_num [Prod.mk.injEq]
      · rw [normDate_of_valid (f + 1) y m (i - 1) (by omega) (by omega)]
        rw [normDate_of_valid (f + 1) y m i (by omega) (by omega)]
        rw [predDay, if_pos (by omega)]

theorem normDate_iterate (f : ℕ) : ∀ (n : ℕ), (n : ℤ) + 1 ≤ 28 * (f : ℤ) →
    ∀ y m d : ℤ, ValidYMD y m d →
    normDate f (y, m, d - (n : ℤ)) = predDay^[n] (y, m, d) := by
  intro n
  induction n with
  | zero =>
    intro hfuel y m d hv
    obtain ⟨h1, h2, h3, h4⟩ := hv
    simp only [Nat.cast_zero, sub_zero, Function.iterate_zero, id]
    exact normDate_of_valid f y m d h3 h4
  | succ k ih =>
    intro hfuel y m d hv
    obtain ⟨h1, h2, h3, h4⟩ := hv
    have step : normDate f (y, m, (d - (k : ℤ)) - 1) =
        predDay (normDate f (y, m, d - (k : ℤ))) :=
      normDate_pred f y m (d - (k : ℤ)) h1 h2 (by omega) (by omega)
    have harg : d - ((k + 1 : ℕ) : ℤ) = (d - (k : ℤ)) - 1 := by push_cast; ring
    rw [harg, step, ih (by omega) y m d ⟨h1, h2, h3, h4⟩, Function.iterate_succ_apply']

theorem digit_facts : ∀ r : ℕ, r < 10 →
    (Char.ofNat (48 + r)).isDigit = true ∧ (Char.ofNat (48 + r)).toNat = 48 + r := by
  decide

theorem digitChar_isDigit (n : ℕ) : (digitChar n).isDigit = true :=
  (digit_facts (n % 10) (Nat.mod_lt _ (by norm_num))).1

theorem digitVal_digitChar (n : ℕ) : digitVal (digitChar n) = n % 10 := by
  have h := digit_facts (n % 10) (Nat.mod_lt _ (by norm_num))
  rw [digitVal, digitChar, h.2]
  omega

/-- Parsing inverts formatting on valid four-digit-year dates. -/
theorem parseYMD_formatYMD (y m d : ℤ) (hy1 : 1000 ≤ y) (hy2 : y ≤ 9999)
    (hv : ValidYMD y m d) :
    parseYMD (formatYMD (y, m, d)) = some (y.toNat, m.toNat, d.toNat) := by
  obtain ⟨hm1, hm2, hd1, hd4⟩ := hv
  have hdim := daysInMonth_bounds y m
  have hyy : (y.toNat : ℤ) = y := Int.toNat_of_nonneg (by omega)
  have hmm : (m.toNat : ℤ) = m := Int.toNat_of_nonneg (by omega)
  have hdd : (d.toNat : ℤ) = d := Int.toNat_of_nonneg (by omega)
  have hynb : y.toNat ≤ 9999 := by omega
  have hmnb : m.toNat ≤ 12 := by omega
  have hdnb : d.toNat ≤ 31 := by
    have := hdim.2
    omega
  rw [formatYMD, parseYMD]
  simp only [digitChar_isDigit, Bool.and_self, Bool.true_and, beq_self_eq_true, if_true]
  have hy : digitVal (digitChar (y.toNat / 1000)) * 1000 +
      digitVal (digitChar (y.toNat / 100)) * 100
      + digitVal (digitChar (y.toNat / 10)) * 10 + digitVal (digitChar y.toNat) = y.toNat := by
    simp only [digitVal_digitChar]
    omega
  have hm : digitVal (digitChar (m.toNat / 10)) * 10 + digitVal (digitChar m.toNat)
      = m.toNat := by
    simp only [digitVal_digitChar]
    omega
  have hd : digitVal (digitChar (d.toNat / 10)) * 10 + digitVal (digitChar d.toNat)
      = d.toNat := by
    simp only [digitVal_digitChar]
    omega
  rw [hy, hm, hd]
  have hcond : (1 ≤ m.toNat && m.toNat ≤ 12 && 1 ≤ d.toNat &&
      decide ((d.toNat : ℤ) ≤ daysInMonth (y.toNat : ℤ) (m.toNat : ℤ))) = true := by
    rw [hyy, hmm, hdd]
    simp only [Bool.and_eq_true, decide_eq_true_eq]
    refine ⟨⟨⟨?_, ?_⟩, ?_⟩, ?_⟩ <;> omega
  rw [if_pos hcond]

/-- C9: `calculatePreviousPeriodStartDate` performs calendar-correct
date arithmetic in the UTC model: the default lookback is 30 days; on
every valid `YYYY-MM-DD` date it returns the date `lookbackDays`
calendar days earlier (the `lookbackDays`-fold calendar predecessor),
formatted `YYYY-MM-DD`; and concretely
`calculatePreviousPeriodStartDate "2024-06-17" 30 = "2024-05-18"`. -/
theorem previousPeriodStart_calendar_correct :
    (∀ s, calculatePreviousPeriodStartDate s = calculatePreviousPeriodStartDate s 30)
    ∧ (∀ (y m d : ℤ) (n : ℕ), 1000 ≤ y → y ≤ 9999 → ValidYMD y m d →
        calculatePreviousPeriodStartDate (formatYMD (y, m, d)) n =
          some (formatYMD (predDay^[n] (y, m, d))))
    ∧ calculatePreviousPeriodStartDate "2024-06-17" 30 = some "2024-05-18" := by
  refine ⟨fun s => rfl, ?_, ?_⟩
  · intro y m d n hy1 hy2 hv
    rw [calculatePreviousPeriodStartDate, parseYMD_formatYMD y m d hy1 hy2 hv]
    rw [Option.map_some']
    congr 1
    have hyy : (y.toNat : ℤ) = y := Int.toNat_of_nonneg (by omega)
    have hmm : (m.toNat : ℤ) = m := Int.toNat_of_nonneg (by
      have := hv.1
      omega)
    have hdd : (d.toNat : ℤ) = d := Int.toNat_of_nonneg (by
      have := hv.2.2.1
      omega)
    dsimp only
    rw [hyy, hmm, hdd]
    rw [normDate_iterate (n + 2) n (by omega) y m d hv]
  · rfl

/-- Witness for `previousPeriodStart_calendar_correct` at
`2024-06-17` minus 30 days. -/
theorem previousPeriodStart_calendar_correct_witness :
    calculatePreviousPeriodStartDate (formatYMD (2024, 6, 17)) 30 =
      some (formatYMD (predDay^[30] (2024, 6, 17))) :=
  previousPeriodStart_calendar_correct.2.1 2024 6 17 30 (by norm_num) (by norm_num)
    (by constructor
        · norm_num
        · refine ⟨by norm_num, by norm_num, ?_⟩
          norm_num [daysInMonth])

/-! ## Analysis-node data flow (src/agents/nodes.ts) -/

/-- Pure data-flow of `analyzeMetrics` (src/agents/nodes.ts): the
"previous period" sets are the trailing 30-day window
`[pastDate, date)` of the loaded data, while the "current" sets are the
FULL loaded collections, unfiltered.  `none` models the date-parsing
failure path (caught into the error field). -/
def analyzeMetricsCore (date : String) (transactions : List Transaction)
    (sourceData : List SourceData) : Option MetricsTrend :=
  (calculatePreviousPeriodStartDate date 30).map (fun pastDate =>
    calculateMetricsTrend transactions sourceData
      (filterTransactionsByDateRange transactions pastDate date)
      (filterSourceDataByDateRange sourceData pastDate date))

/-- Pure data-flow of `analyzeConversions` (src/agents/nodes.ts). -/
def analyzeConversionsCore (date : String) (sessions : List Session) (leads : List Lead)
    (contacts : List Contact) (transactions : List Transaction) :
    Option (List StageTrend) :=
  (calculatePreviousPeriodStartDate date 30).map (fun pastDate =>
    calculateConversionsTrend sessions leads contacts transactions
      (filterSessionsByDateRange sessions pastDate date)
      (filterLeadsByDateRange leads pastDate date)
      (filterContactsByDateRange contacts pastDate date)
      (filterTransactionsByDateRange transactions pastDate date))

/-- Pure data-flow of `analyzeChannels` (src/agents/nodes.ts). -/
def analyzeChannelsCore (date : String) (sessions : List Session) (atoms : List Atom) :
    Option (List ChannelEntry) :=
  (calculatePreviousPeriodStartDate date 30).map (fun pastDate =>
    calculateChannelsTrend sessions (filterSessionsByDateRange sessions pastDate date) atoms)

/-- The metrics comparison as the spec words it (refinement target,
built from the spec, not the source): the calculator applied once to
the current-period set — the trailing 30-day window ending at the
analysis date — and once to the previous-period set — the equal-length
window immediately preceding it. -/
def specAnalyzeMetricsCore (date : String) (transactions : List Transaction)
    (sourceData : List SourceData) : Option MetricsTrend :=
  (calculatePreviousPeriodStartDate date 30).bind (fun currentStart =>
    (calculatePreviousPeriodStartDate date 60).map (fun previousStart =>
      calculateMetricsTrend
        (filterTransactionsByDateRange transactions currentStart date)
        (filterSourceDataByDateRange sourceData currentStart date)
        (filterTransactionsByDateRange transactions previousStart currentStart)
        (filterSourceDataByDateRange sourceData previousStart currentStart)))

/-- C2 counterexample: a transaction and a spend row dated long before
any lookback window still enter the "current" computation of the
metrics node (which passes the whole dataset), so the node's result
differs from the spec-mandated windowed computation. -/
theorem trend_current_sets_not_windowed :
    analyzeMetricsCore "2024-06-17"
        [⟨"t1", "a1", "m1", "2020-01-01 08:00:00", 5, true⟩]
        [⟨"2020-01-01", "a1", 0, 1, 0⟩]
      ≠ specAnalyzeMetricsCore "2024-06-17"
        [⟨"t1", "a1", "m1", "2020-01-01 08:00:00", 5, true⟩]
        [⟨"2020-01-01", "a1", 0, 1, 0⟩] := by
  intro h
  have h30 : calculatePreviousPeriodStartDate "2024-06-17" 30 = some "2024-05-18" := rfl
  have h60 : calculatePreviousPeriodStartDate "2024-06-17" 60 = some "2024-04-18" := rfl
  have hfT30 : filterTransactionsByDateRange
      [⟨"t1", "a1", "m1", "2020-01-01 08:00:00", 5, true⟩] "2024-05-18" "2024-06-17"
      = [] := by decide
  have hfS30 : filterSourceDataByDateRange
      [⟨"2020-01-01", "a1", 0, 1, 0⟩] "2024-05-18" "2024-06-17" = [] := by decide
  have hfT60 : filterTransactionsByDateRange
      [⟨"t1", "a1", "m1", "2020-01-01 08:00:00", 5, true⟩] "2024-04-18" "2024-05-18"
      = [] := by decide
  have hfS60 : filterSourceDataByDateRange
      [⟨"2020-01-01", "a1", 0, 1, 0⟩] "2024-04-18" "2024-05-18" = [] := by decide
  rw [analyzeMetricsCore, specAnalyzeMetricsCore, h30, h60] at h
  simp only [Option.map_some', Option.some_bind] at h
  rw [hfT30, hfS30, hfT60, hfS60, Option.some_inj] at h
  have hc := congrArg (fun r => r.roas.current) h
  norm_num [calculateMetricsTrend, calculateROAS] at hc

/-- C2 amended: for every run, each trend comparison (metrics,
conversions, channels) applies its calculator once to the ENTIRE loaded
record sets as the "current" period (no date filtering) and once to the
records of the trailing 30-day window `[date - 30, date)` — obtained by
date-range filtering of the same dataset — as the "previous" period;
the window immediately preceding the trailing window is never used. -/
theorem trend_nodes_period_sets :
    ∀ (date pastDate : String), calculatePreviousPeriodStartDate date 30 = some pastDate →
      (∀ (txs : List Transaction) (srcs : List SourceData),
        analyzeMetricsCore date txs srcs = some (calculateMetricsTrend txs srcs
          (filterTransactionsByDateRange txs pastDate date)
          (filterSourceDataByDateRange srcs pastDate date)))
      ∧ (∀ (sessions : List Session) (leads : List Lead) (contacts : List Contact)
          (txs : List Transaction),
        analyzeConversionsCore date sessions leads contacts txs =
          some (calculateConversionsTrend sessions leads contacts txs
            (filterSessionsByDateRange sessions pastDate date)
            (filterLeadsByDateRange leads pastDate date)
            (filterContactsByDateRange contacts pastDate date)
            (filterTransactionsByDateRange txs pastDate date)))
      ∧ (∀ (sessions : List Session) (atoms : List Atom),
        analyzeChannelsCore date sessions atoms = some (calculateChannelsTrend sessions
          (filterSessionsByDateRange sessions pastDate date) atoms))
      ∧ (∀ (txs : List Transaction) (t : Transaction),
        t ∈ filterTransactionsByDateRange txs pastDate date ↔
          t ∈ txs ∧ strLeb pastDate (extractDatePart t.paymentDatetimeShifted) = true
            ∧ strLtb (extractDatePart t.paymentDatetimeShifted) date = true) := by
  intro date pastDate hpd
  refine ⟨?_, ?_, ?_, ?_⟩
  · intro txs srcs
    rw [analyzeMetricsCore, hpd, Option.map_some']
  · intro sessions leads contacts txs
    rw [analyzeConversionsCore, hpd, Option.map_some']
  · intro sessions atoms
    rw [analyzeChannelsCore, hpd, Option.map_some']
  · intro txs t
    simp [filterTransactionsByDateRange, List.mem_filter, and_assoc]

/-- Witness for `trend_nodes_period_sets` at a concrete date. -/
theorem trend_nodes_period_sets_witness :
    analyzeMetricsCore "2024-06-17"
        [⟨"t1", "a1", "m1", "2020-01-01 08:00:00", 5, true⟩]
        [⟨"2020-01-01", "a1", 0, 1, 0⟩]
      = some (calculateMetricsTrend
          [⟨"t1", "a1", "m1", "2020-01-01 08:00:00", 5, true⟩]
          [⟨"2020-01-01", "a1", 0, 1, 0⟩]
          (filterTransactionsByDateRange
            [⟨"t1", "a1", "m1", "2020-01-01 08:00:00", 5, true⟩] "2024-05-18" "2024-06-17")
          (filterSourceDataByDateRange
            [⟨"2020-01-01", "a1", 0, 1, 0⟩] "2024-05-18" "2024-06-17")) :=
  (trend_nodes_period_sets "2024-06-17" "2024-05-18" rfl).1
    [⟨"t1", "a1", "m1", "2020-01-01 08:00:00", 5, true⟩]
    [⟨"2020-01-01", "a1", 0, 1, 0⟩]

/-! ## Orchestration graph (src/agents/agent.ts) -/

/-- The workflow nodes of `createMarketingDataAnalysisGraph`. -/
inductive GNode
  | load_data
  | validate_data
  | analyze_metrics
  | analyze_conversions
  | analyze_channels
  | suggest_data_improvements
  | suggest_reporting_improvements
  | generate_summary
  | complete_brief
  | handle_error
  deriving DecidableEq, Repr

/-- Accumulated agent state, abstracted to presence flags for each
stage output plus the error flag (`MarketingAgentState`). -/
structure AgentState where
  testData : Bool
  dataValidation : Bool
  metricsAnalysis : Bool
  conversionAnalysis : Bool
  channelDistribution : Bool
  dataQualityImprovements : Bool
  reportingImprovements : Bool
  summary : Bool
  dailyBrief : Bool
  error : Bool
  deriving DecidableEq, Repr

/-- The slice of state each node populates on success: every node in
src/agents/nodes.ts returns `{...state, itsOutput}` from its try
branch (`handle_error` returns the state unchanged). -/
def setSlice : GNode → AgentState → AgentState
  | .load_data, s => { s with testData := true }
  | .validate_data, s => { s with dataValidation := true }
  | .analyze_metrics, s => { s with metricsAnalysis := true }
  | .analyze_conversions, s => { s with conversionAnalysis := true }
  | .analyze_channels, s => { s with channelDistribution := true }
  | .suggest_data_improvements, s => { s with dataQualityImprovements := true }
  | .suggest_reporting_improvements, s => { s with reportingImprovements := true }
  | .generate_summary, s => { s with summary := true }
  | .complete_brief, s => { s with dailyBrief := true }
  | .handle_error, s => s

/-- A node's failure outcome: the catch branch returns
`{...state, error}`. -/
def setError (s : AgentState) : AgentState := { s with error := true }

/-- Normal successor along the linear chain (the "continue" targets of
`addConditionalEdges`); `complete_brief` and `handle_error` edge to
END. -/
def normalSuccessor : GNode → Option GNode
  | .load_data => some .validate_data
  | .validate_data => some .analyze_metrics
  | .analyze_metrics => some .analyze_conversions
  | .analyze_conversions => some .analyze_channels
  | .analyze_channels => some .suggest_data_improvements
  | .suggest_data_improvements => some .suggest_reporting_improvements
  | .suggest_reporting_improvements => some .generate_summary
  | .generate_summary => some .complete_brief
  | .complete_brief => none
  | .handle_error => none

/-- Routing after a node has produced its state: `complete_brief` and
`handle_error` go to END unconditionally, everything else goes through
`checkForErrors` — to `handle_error` when the state carries an error,
else to the normal successor. -/
def route (n : GNode) (s : AgentState) : Option GNode :=
  match n with
  | .complete_brief => none
  | .handle_error => none
  | _ => if s.error then some .handle_error else normalSuccessor n

/-- Fuelled execution from a node: run the node's effect, then follow
the routing; yields the final state and the trace of executed nodes. -/
def execFrom (effects : GNode → AgentState → AgentState) :
    ℕ → GNode → AgentState → AgentState × List GNode
  | 0, _, s => (s, [])
  | fuel + 1, n, s =>
    match route n (effects n s) with
    | none => (effects n s, [n])
    | some n2 =>
      ((execFrom effects fuel n2 (effects n s)).1,
        n :: (execFrom effects fuel n2 (effects n s)).2)

/-- A full run: the START edge enters at `load_data`; fuel 10 covers
the whole chain. -/
def runGraph (effects : GNode → AgentState → AgentState) (s0 : AgentState) :
    AgentState × List GNode :=
  execFrom effects 10 .load_data s0

/-- Position of a node in the chain (used as a fuel measure). -/
def rank : GNode → ℕ
  | .load_data => 0
  | .validate_data => 1
  | .analyze_metrics => 2
  | .analyze_conversions => 3
  | .analyze_channels => 4
  | .suggest_data_improvements => 5
  | .suggest_reporting_improvements => 6
  | .generate_summary => 7
  | .complete_brief => 8
  | .handle_error => 9

/-- Effects oracles matching the shape of the node implementations:
every node except `handle_error` either succeeds (returns the state
with its slice set) or fails (returns the state with the error flag
set); `handle_error` only logs and returns the state unchanged. -/
def WellFormedEffects (effects : GNode → AgentState → AgentState) : Prop :=
  (∀ s, effects .handle_error s = s) ∧
  (∀ n s, n ≠ .handle_error → effects n s = setSlice n s ∨ effects n s = setError s)

theorem setSlice_error (n : GNode) (s : AgentState) : (setSlice n s).error = s.error := by
  cases n <;> rfl

/-- Every run of the graph ends with `dailyBrief` populated or the
error flag set, whatever the per-node outcomes are. -/
theorem execFrom_terminal (effects : GNode → AgentState → AgentState)
    (hW : WellFormedEffects effects) :
    ∀ fuel : ℕ, ∀ n s, 10 - rank n ≤ fuel → (n = GNode.handle_error → s.error = true) →
    ((execFrom effects fuel n s).1.dailyBrief = true
      ∨ (execFrom effects fuel n s).1.error = true) := by
  intro fuel
  induction fuel with
  | zero =>
    intro n s h1 h2
    exfalso
    cases n <;> simp [rank] at h1
  | succ fuel ih =>
    intro n s h1 h2
    cases n
    case handle_error =>
      rw [execFrom, hW.1 s]
      have hroute : route GNode.handle_error s = none := rfl
      rw [hroute]
      exact Or.inr (h2 rfl)
    case complete_brief =>
      rw [execFrom]
      have hroute : route GNode.complete_brief (effects GNode.complete_brief s) = none := rfl
      rw [hroute]
      rcases hW.2 GNode.complete_brief s (by decide) with hs | hs <;> rw [hs]
      · exact Or.inl rfl
      · exact Or.inr rfl
    case load_data =>
      rw [execFrom]
      rcases hW.2 GNode.load_data s (by decide) with hs | hs <;> rw [hs]
      · by_cases herr : s.error
        · have hr : route GNode.load_data (setSlice GNode.load_data s) =
              some GNode.handle_error := by
            simp [route, setSlice_error, herr]
          rw [hr]
          refine ih GNode.handle_error _ (by simp [rank] at h1 ⊢; omega) ?_
          intro _
          rw [setSlice_error]
          exact herr
        · have hr : route GNode.load_data (setSlice GNode.load_data s) =
              some GNode.validate_data := by
            simp [route, setSlice_error, herr, normalSuccessor]
          rw [hr]
          exact ih GNode.validate_data _ (by simp [rank] at h1 ⊢; omega)
            (fun hh => absurd hh (by decide))
      · have hr : route GNode.load_data (setError s) = some GNode.handle_error := by
          simp [route, setError]
        rw [hr]
        exact ih GNode.handle_error _ (by simp [rank] at h1 ⊢; omega) (fun _ => rfl)
    case validate_data =>
      rw [execFrom]
      rcases hW.2 GNode.validate_data s (by decide) with hs | hs <;> rw [hs]
      · by_cases herr : s.error
        · have hr : route GNode.validate_data (setSlice GNode.validate_data s) =
              some GNode.handle_error := by
            simp [route, setSlice_error, herr]
          rw [hr]
          refine ih GNode.handle_error _ (by simp [rank] at h1 ⊢; omega) ?_
          intro _
          rw [setSlice_error]
          exact herr
        · have hr : route GNode.validate_data (setSlice GNode.validate_data s) =
              some GNode.analyze_metrics := by
            simp [route, setSlice_error, herr, normalSuccessor]
          rw [hr]
          exact ih GNode.analyze_metrics _ (by simp [rank] at h1 ⊢; omega)
            (fun hh => absurd hh (by decide))
      · have hr : route GNode.validate_data (setError s) = some GNode.handle_error := by
          simp [route, setError]
        rw [hr]
        exact ih GNode.handle_error _ (by simp [rank] at h1 ⊢; omega) (fun _ => rfl)
    case analyze_metrics =>
      rw [execFrom]
      rcases hW.2 GNode.analyze_metrics s (by decide) with hs | hs <;> rw [hs]
      · by_cases herr : s.error
        · have hr : route GNode.analyze_metrics (setSlice GNode.analyze_metrics s) =
              some GNode.handle_error := by
            simp [route, setSlice_error, herr]
          rw [hr]
          refine ih GNode.handle_error _ (by simp [rank] at h1 ⊢; omega) ?_
          intro _
          rw [setSlice_error]
          exact herr
        · have hr : route GNode.analyze_metrics (setSlice GNode.analyze_metrics s) =
              some GNode.analyze_conversions := by
            simp [route, setSlice_error, herr, normalSuccessor]
          rw [hr]
          exact ih GNode.analyze_conversions _ (by simp [rank] at h1 ⊢; omega)
            (fun hh => absurd hh (by decide))
      · have hr : route GNode.analyze_metrics (setError s) = some GNode.handle_error := by
          simp [route, setError]
        rw [hr]
        exact ih GNode.handle_error _ (by simp [rank] at h1 ⊢; omega) (fun _ => rfl)
    case analyze_conversions =>
      rw [execFrom]
      rcases hW.2 GNode.analyze_conversions s (by decide) with hs | hs <;> rw [hs]
      · by_cases herr : s.error
        · have hr : route GNode.analyze_conversions (setSlice GNode.analyze_conversions s) =
              some GNode.handle_error := by
            simp [route, setSlice_error, herr]
          rw [hr]
          refine ih GNode.handle_error _ (by simp [rank] at h1 ⊢; omega) ?_
          intro _
          rw [setSlice_error]
          exact herr
        · have hr : route GNode.analyze_conversions (setSlice GNode.analyze_conversions s) =
              some GNode.analyze_channels := by
            simp [route, setSlice_error, herr, normalSuccessor]
          rw [hr]
          exact ih GNode.analyze_channels _ (by simp [rank] at h1 ⊢; omega)
            (fun hh => absurd hh (by decide))
      · have hr : route GNode.analyze_conversions (setError s) = some GNode.handle_error := by
          simp [route, setError]
        rw [hr]
        exact ih GNode.handle_error _ (by simp [rank] at h1 ⊢; omega) (fun _ => rfl)
    case analyze_channels =>
      rw [execFrom]
      rcases hW.2 GNode.analyze_channels s (by decide) with hs | hs <;> rw [hs]
      · by_cases herr : s.error
        · have hr : route GNode.analyze_channels (setSlice GNode.analyze_channels s) =
              some GNode.handle_error := by
            simp [route, setSlice_error, herr]
          rw [hr]
          refine ih GNode.handle_error _ (by simp [rank] at h1 ⊢; omega) ?_
          intro _
          rw [setSlice_error]
          exact herr
        · have hr : route GNode.analyze_channels (setSlice GNode.analyze_channels s) =
              some GNode.suggest_data_improvements := by
            simp [route, setSlice_error, herr, normalSuccessor]
          rw [hr]
          exact ih GNode.suggest_data_improvements _ (by simp [rank] at h1 ⊢; omega)
            (fun hh => absurd hh (by decide))
      · have hr : route GNode.analyze_channels (setError s) = some GNode.handle_error := by
          simp [route, setError]
        rw [hr]
        exact ih GNode.handle_error _ (by simp [rank] at h1 ⊢; omega) (fun _ => rfl)
    case suggest_data_improvements =>
      rw [execFrom]
      rcases hW.2 GNode.suggest_data_improvements s (by decide) with hs | hs <;> rw [hs]
      · by_cases herr : s.error
        · have hr : route GNode.suggest_data_improvements (setSlice GNode.suggest_data_improvements s) =
              some GNode.handle_error := by
            simp [route, setSlice_error, herr]
          rw [hr]
          refine ih GNode.handle_error _ (by simp [rank] at h1 ⊢; omega) ?_
          intro _
          rw [setSlice_error]
          exact herr
        · have hr : route GNode.suggest_data_improvements (setSlice GNode.suggest_data_improvements s) =
              some GNode.suggest_reporting_improvements := by
            simp [route, setSlice_error, herr, normalSuccessor]
          rw [hr]
          exact ih GNode.suggest_reporting_improvements _ (by simp [rank] at h1 ⊢; omega)
            (fun hh => absurd hh (by decide))
      · have hr : route GNode.suggest_data_improvements (setError s) = some GNode.handle_error := by
          simp [route, setError]
        rw [hr]
        exact ih GNode.handle_error _ (by simp [rank] at h1 ⊢; omega) (fun _ => rfl)
    case suggest_reporting_improvements =>
      rw [execFrom]
      rcases hW.2 GNode.suggest_reporting_improvements s (by decide) with hs | hs <;> rw [hs]
      · by_cases herr : s.error
        · have hr : route GNode.suggest_reporting_improvements (setSlice GNode.suggest_reporting_improvements s) =
              some GNode.handle_error := by
            simp [route, setSlice_error, herr]
          rw [hr]
          refine ih GNode.handle_error _ (by simp [rank] at h1 ⊢; omega) ?_
          intro _
          rw [setSlice_error]
          exact herr
        · have hr : route GNode.suggest_reporting_improvements (setSlice GNode.suggest_reporting_improvements s) =
              some GNode.generate_summary := by
            simp [route, setSlice_error, herr, normalSuccessor]
          rw [hr]
          exact ih GNode.generate_summary _ (by simp [rank] at h1 ⊢; omega)
            (fun hh => absurd hh (by decide))
      · have hr : route GNode.suggest_reporting_improvements (setError s) = some GNode.handle_error := by
          simp [route, setError]
        rw [hr]
        exact ih GNode.handle_error _ (by simp [rank] at h1 ⊢; omega) (fun _ => rfl)
    case generate_summary =>
      rw [execFrom]
      rcases hW.2 GNode.generate_summary s (by decide) with hs | hs <;> rw [hs]
      · by_cases herr : s.error
        · have hr : route GNode.generate_summary (setSlice GNode.generate_summary s) =
              some GNode.handle_error := by
            simp [route, setSlice_error, herr]
          rw [hr]
          refine ih GNode.handle_error _ (by simp [rank] at h1 ⊢; omega) ?_
          intro _
          rw [setSlice_error]
          exact herr
        · have hr : route GNode.generate_summary (setSlice GNode.generate_summary s) =
              some GNode.complete_brief := by
            simp [route, setSlice_error, herr, normalSuccessor]
          rw [hr]
          exact ih GNode.complete_brief _ (by simp [rank] at h1 ⊢; omega)
            (fun hh => absurd hh (by decide))
      · have hr : route GNode.generate_summary (setError s) = some GNode.handle_error := by
          simp [route, setError]
        rw [hr]
        exact ih GNode.handle_error _ (by simp [rank] at h1 ⊢; omega) (fun _ => rfl)

/-- C5: for every oracle of per-node outcomes matching the node
implementations, (1) once the accumulated state carries an error,
every conditional transition routes to the HANDLE_ERROR terminal
instead of the normal successor, (2) from HANDLE_ERROR the run
executes only HANDLE_ERROR (no downstream analysis stage) and
terminates with the state unchanged, and (3) every full run ends with
`dailyBrief` populated or `error` populated. -/
theorem orchestrator_error_shortcircuit (effects : GNode → AgentState → AgentState)
    (hW : WellFormedEffects effects) :
    (∀ (n : GNode) (s : AgentState), n ≠ GNode.complete_brief → n ≠ GNode.handle_error →
      s.error = true → route n s = some GNode.handle_error)
    ∧ (∀ (fuel : ℕ) (s : AgentState),
      execFrom effects (fuel + 1) GNode.handle_error s = (s, [GNode.handle_error]))
    ∧ (∀ s0 : AgentState, (runGraph effects s0).1.dailyBrief = true
        ∨ (runGraph effects s0).1.error = true) := by
  refine ⟨?_, ?_, ?_⟩
  · intro n s h1 h2 herr
    cases n
    case complete_brief => exact absurd rfl h1
    case handle_error => exact absurd rfl h2
    all_goals simp [route, herr]
  · intro fuel s
    rw [execFrom, hW.1 s]
    have hroute : route GNode.handle_error s = none := rfl
    rw [hroute]
  · intro s0
    exact execFrom_terminal effects hW 10 GNode.load_data s0 (by simp [rank])
      (fun hh => absurd hh (by decide))

/-- All-succeeding effects oracle, used by the witness. -/
def allOkEffects : GNode → AgentState → AgentState :=
  fun n s => if n = GNode.handle_error then s else setSlice n s

theorem allOkEffects_wf : WellFormedEffects allOkEffects := by
  constructor
  · intro s
    simp [allOkEffects]
  · intro n s hn
    left
    simp [allOkEffects, hn]

/-- Witness for `orchestrator_error_shortcircuit`: a concrete
all-succeeding run reaches a terminal state with `dailyBrief` or
`error` populated, and a concrete errored state at an analysis node
routes to HANDLE_ERROR. -/
theorem orchestrator_error_shortcircuit_witness :
    ((runGraph allOkEffects
        ⟨false, false, false, false, false, false, false, false, false, false⟩).1.dailyBrief
          = true
      ∨ (runGraph allOkEffects
        ⟨false, false, false, false, false, false, false, false, false, false⟩).1.error
          = true)
    ∧ route GNode.analyze_metrics
        ⟨true, true, false, false, false, false, false, false, false, true⟩
        = some GNode.handle_error :=
  ⟨(orchestrator_error_shortcircuit allOkEffects allOkEffects_wf).2.2
      ⟨false, false, false, false, false, false, false, false, false, false⟩,
    (orchestrator_error_shortcircuit allOkEffects allOkEffects_wf).1 GNode.analyze_metrics
      ⟨true, true, false, false, false, false, false, false, false, true⟩
      (by decide) (by decide) rfl⟩
